import Mathlib

/-!
Shallow embedding of the order-trigger state machine and the portfolio
event-processing loop of the py-investment repository.

Sources embedded here:
  * src/pytech/order.py            (Order: status getter, triggered, open,
                                    open_amount, cancel/reject/hold,
                                    check_order_triggers, constructor)
  * src/pytech/fin/portfolio/portfolio.py
                                   (Portfolio: check_liquidity,
                                    get_owned_asset_mv, current_weights,
                                    get_asset_weight, update_timeindex;
                                    BasicPortfolio: update_fill,
                                    update_signal, _update_from_trade)

Python numbers are modelled as exact rationals (prices, cash) and integers
(share quantities); timestamps as naturals.  A Python expression that would
raise an exception (TypeError from comparing None, KeyError,
ZeroDivisionError) is modelled by an Option/Except none/error result.
-/

/-- The `TradeAction` enum (used by order.py and portfolio.py). -/
inductive TradeAction where
  | BUY
  | SELL
deriving DecidableEq, Repr

/-- The `OrderType` enum. -/
inductive OrderType where
  | MARKET
  | LIMIT
  | STOP
  | STOP_LIMIT
deriving DecidableEq, Repr

/-- The `OrderSubType` enum. -/
inductive OrderSubType where
  | DAY
  | GOOD_TIL_CANCELED
deriving DecidableEq, Repr

/-- The `OrderStatus` enum. -/
inductive OrderStatus where
  | OPEN
  | FILLED
  | CANCELLED
  | REJECTED
  | HELD
deriving DecidableEq, Repr

/-- The mutable state of an `Order` (src/pytech/order.py, class Order).
The Python attribute `_status` (behind the `status` property) keeps its
name; the asset reference is reduced to its ticker; `id` is the synthetic
database id used by the blotter lookup. -/
structure Order where
  id : Nat
  ticker : String
  action : TradeAction
  order_type : OrderType
  order_subtype : OrderSubType
  stop : Option Rat
  limit : Option Rat
  stop_reached : Bool
  limit_reached : Bool
  qty : Int
  filled : Int
  commission : Rat
  _status : OrderStatus
  reason : Option String
  created : Nat
  last_updated : Nat
  max_days_open : Option Nat
deriving DecidableEq, Repr

/-- `Order.open_amount` property: `self.qty - self.filled`. -/
def Order.open_amount (o : Order) : Int :=
  o.qty - o.filled

/-- The `Order.status` property getter: `if not self.open_amount: FILLED;
elif self._status == HELD and self.filled: OPEN; else self._status`
(integer truthiness is nonzero-ness). -/
def Order.status (o : Order) : OrderStatus :=
  if o.open_amount = 0 then OrderStatus.FILLED
  else if o._status = OrderStatus.HELD ∧ o.filled ≠ 0 then OrderStatus.OPEN
  else o._status

/-- The `Order.status` property setter (`self._status = ...`; the
`check_if_valid` validation is subsumed by typing). -/
def Order.setStatus (o : Order) (s : OrderStatus) : Order :=
  { o with _status := s }

/-- The `Order.triggered` property. -/
def Order.triggered (o : Order) : Bool :=
  if o.stop.isSome && !o.stop_reached then false
  else if o.limit.isSome && !o.limit_reached then false
  else true

/-- The `Order.open` property: `self.status in [OPEN, HELD]`. -/
def Order.is_open (o : Order) : Bool :=
  o.status = OrderStatus.OPEN ∨ o.status = OrderStatus.HELD

/-- `Order.cancel(reason)`. -/
def Order.cancel (o : Order) (r : String) : Order :=
  { o.setStatus OrderStatus.CANCELLED with reason := some r }

/-- `Order.reject(reason)`. -/
def Order.reject (o : Order) (r : String) : Order :=
  { o.setStatus OrderStatus.REJECTED with reason := some r }

/-- `Order.hold(reason)`. -/
def Order.hold (o : Order) (r : String) : Order :=
  { o.setStatus OrderStatus.HELD with reason := some r }

/-- The `Order.__init__` constructor (src/pytech/order.py lines 45-127):
`max_days_open` defaults to 90 for non-DAY orders, a positive `qty` on a
SELL is negated, trigger flags start false, `_status` starts OPEN,
`last_updated` starts at `created`.  The asset/portfolio type validation
is subsumed by typing. -/
def Order.init (id : Nat) (ticker : String) (action : TradeAction)
    (order_type : OrderType) (stop : Option Rat) (limit : Option Rat)
    (qty : Int) (filled : Int) (commission : Rat) (created : Nat)
    (order_subtype : OrderSubType) (max_days_open : Option Nat) : Order :=
  { id := id
    ticker := ticker
    action := action
    order_type := order_type
    order_subtype := order_subtype
    stop := stop
    limit := limit
    stop_reached := false
    limit_reached := false
    qty := if action = TradeAction.SELL ∧ 0 < qty then -qty else qty
    filled := filled
    commission := commission
    _status := OrderStatus.OPEN
    reason := none
    created := created
    last_updated := created
    max_days_open :=
      if order_subtype ≠ OrderSubType.DAY ∧ max_days_open = none
      then some 90 else max_days_open }

/-- The if/elif chain of `Order.check_order_triggers` (src/pytech/order.py
lines 187-214), one rule per (order type, action) pair.  `none` models the
TypeError Python raises when a branch compares the price against an unset
(`None`) stop/limit; the claims never inspect the partially mutated state
left behind by such an exception. -/
def Order.trigger_branch (o : Order) (current_price : Rat)
    (now : Nat) : Option Order :=
  match o.order_type, o.action with
      | OrderType.STOP_LIMIT, TradeAction.BUY =>
          match o.stop with
          | none => none
          | some s =>
              if s ≤ current_price then
                match o.limit with
                | none => none
                | some l =>
                    let o1 := { o with stop_reached := true,
                                       last_updated := now }
                    if l ≤ current_price then
                      some { o1 with limit_reached := true }
                    else some o1
              else some o
      | OrderType.STOP_LIMIT, TradeAction.SELL =>
          match o.stop with
          | none => none
          | some s =>
              if current_price ≤ s then
                match o.limit with
                | none => none
                | some l =>
                    let o1 := { o with stop_reached := true,
                                       last_updated := now }
                    if l ≤ current_price then
                      some { o1 with limit_reached := true }
                    else some o1
              else some o
      | OrderType.STOP, TradeAction.BUY =>
          match o.stop with
          | none => none
          | some s =>
              if s ≤ current_price then
                some { o with stop_reached := true, last_updated := now }
              else some o
      | OrderType.STOP, TradeAction.SELL =>
          match o.stop with
          | none => none
          | some s =>
              if current_price ≤ s then
                some { o with stop_reached := true, last_updated := now }
              else some o
      | OrderType.LIMIT, TradeAction.BUY =>
          match o.limit with
          | none => none
          | some l =>
              if l ≤ current_price then
                some { o with limit_reached := true, last_updated := now }
              else some o
      | OrderType.LIMIT, TradeAction.SELL =>
          match o.limit with
          | none => none
          | some l =>
              if current_price ≤ l then
                some { o with limit_reached := true, last_updated := now }
              else some o
      | OrderType.MARKET, _ => some o

/-- `Order.check_order_triggers` (src/pytech/order.py lines 172-219) as a
state transformer: MARKET orders return immediately (True in the source),
an already triggered order is a no-op, otherwise the if/elif chain
(`trigger_branch`) runs and then the final conversion block turns a
STOP_LIMIT order whose stop was reached into a LIMIT order with its stop
cleared.  The current price (fetched from the price oracle in the source)
and the clock value used for `datetime.now()` are parameters. -/
def Order.check_order_triggers (o : Order) (current_price : Rat)
    (now : Nat) : Option Order :=
  if o.order_type = OrderType.MARKET then some o
  else if o.triggered then some o
  else
    match o.trigger_branch current_price now with
    | none => none
    | some o1 =>
        if o1.stop_reached ∧ o1.order_type = OrderType.STOP_LIMIT then
          some { o1 with stop := none, order_type := OrderType.LIMIT }
        else some o1

/-- The comparison guard of the `trigger_branch` rule selected for the
order: true exactly when the selected if/elif branch would write to the
order. -/
def Order.trigger_guard (o : Order) (current_price : Rat) : Bool :=
  match o.order_type, o.action with
  | OrderType.STOP_LIMIT, TradeAction.BUY =>
      match o.stop with
      | some s => decide (s ≤ current_price)
      | none => false
  | OrderType.STOP_LIMIT, TradeAction.SELL =>
      match o.stop with
      | some s => decide (current_price ≤ s)
      | none => false
  | OrderType.STOP, TradeAction.BUY =>
      match o.stop with
      | some s => decide (s ≤ current_price)
      | none => false
  | OrderType.STOP, TradeAction.SELL =>
      match o.stop with
      | some s => decide (current_price ≤ s)
      | none => false
  | OrderType.LIMIT, TradeAction.BUY =>
      match o.limit with
      | some l => decide (l ≤ current_price)
      | none => false
  | OrderType.LIMIT, TradeAction.SELL =>
      match o.limit with
      | some l => decide (current_price ≤ l)
      | none => false
  | OrderType.MARKET, _ => false

/-- The disjunction of the mutation guards of `check_order_triggers`: it is
true exactly when some part of the source function (the selected if/elif
branch, or the final STOP_LIMIT to LIMIT conversion block) would write to
the order.  This is the formalisation of the spec phrase "no trigger
condition met". -/
def Order.trigger_condition_met (o : Order) (current_price : Rat) : Bool :=
  if o.order_type = OrderType.MARKET then false
  else if o.triggered then false
  else
    o.trigger_guard current_price
    || (o.stop_reached && decide (o.order_type = OrderType.STOP_LIMIT))

/-- First-match association-list lookup, modelling Python dict access on the
string-keyed dicts of portfolio.py (keys are unique in every state the code
builds, so first-match agrees with dict semantics). -/
def aget {α : Type} (d : List (String × α)) (k : String) : Option α :=
  match d with
  | [] => none
  | kv :: rest => if kv.1 = k then some kv.2 else aget rest k

/-- Association-list update, modelling Python dict assignment: overwrite the
existing entry for the key, else append a new one. -/
def aset {α : Type} (d : List (String × α)) (k : String) (v : α) :
    List (String × α) :=
  match d with
  | [] => [(k, v)]
  | kv :: rest => if kv.1 = k then (k, v) :: rest else kv :: aset rest k v

/-- Association-list deletion, modelling Python `del d[k]`. -/
def adel {α : Type} (d : List (String × α)) (k : String) :
    List (String × α) :=
  match d with
  | [] => []
  | kv :: rest => if kv.1 = k then rest else kv :: adel rest k

/-- The `EventType` enum (pytech.utils.enums). -/
inductive EventType where
  | MARKET
  | SIGNAL
  | FILL
deriving DecidableEq, Repr

/-- One event record; `event_type` discriminates, and the fill payload
fields (order_id, price, dt, available_volume) are meaningful only for FILL
events, mirroring FillEvent. -/
structure Event where
  event_type : EventType
  order_id : Nat
  price : Rat
  dt : Nat
  available_volume : Int
deriving DecidableEq, Repr

/-- The exceptions raised by the embedded portfolio code. -/
inductive PError where
  | InvalidEventTypeError
  | InsufficientFundsError
  | KeyError
  | ZeroDivisionError
deriving DecidableEq, Repr

/-- The `Position` enum (pytech.utils.enums). -/
inductive Position where
  | LONG
  | SHORT
deriving DecidableEq, Repr

/-- Modelled from the spec: class OwnedAsset (pytech.fin.asset.owned_asset)
is not under src/; per spec section 3 an Owned Position has signed shares
owned, a direction, and a current mark-to-market value. -/
structure OwnedAsset where
  shares_owned : Int
  position : Position
  total_position_value : Rat
deriving DecidableEq, Repr

/-- Modelled from the spec: `OwnedAsset.update_total_position_value`
(called by update_timeindex) records the mark value, shares times latest
price (spec section 4.3 step 3); the timestamp argument is dropped. -/
def OwnedAsset.update_total_position_value (a : OwnedAsset) (price : Rat) :
    OwnedAsset :=
  { a with total_position_value := (a.shares_owned : Rat) * price }

/-- Modelled from the spec: class Trade (pytech.trading.trade) is not under
src/; per spec section 3 a Trade carries ticker, action, quantity, price
per share, and per section 4.4 a commission. -/
structure Trade where
  ticker : String
  action : TradeAction
  qty : Int
  avg_price_per_share : Rat
  commission : Rat
  dt : Nat
deriving DecidableEq, Repr

/-- Modelled from the spec: `Trade.trade_cost()` is the signed cash delta
of the trade: net value (quantity times price, sign-adjusted so a BUY
debits cash) minus commission (spec sections 3 and 4.4; the section 8 fill
example 100000 - 100 x 10 - 1 = 98999 fixes the signs). -/
def Trade.trade_cost (tr : Trade) : Rat :=
  -((tr.qty : Rat) * tr.avg_price_per_share) - tr.commission

/-- Modelled from the spec: `OwnedAsset.from_trade` opens a position sized
and directed by the trade (spec section 4.4). -/
def OwnedAsset.from_trade (tr : Trade) (pos : Position) : OwnedAsset :=
  { shares_owned := tr.qty
    position := pos
    total_position_value := (tr.qty : Rat) * tr.avg_price_per_share }

/-- Modelled from the spec: `OwnedAsset.make_trade` merges a trade into an
existing position and returns the updated position, or nothing when the
resulting share count is exactly zero (spec section 4.4). -/
def OwnedAsset.make_trade (a : OwnedAsset) (qty : Int) (price : Rat) :
    Option OwnedAsset :=
  let s := a.shares_owned + qty
  if s = 0 then none
  else some { a with shares_owned := s,
                     total_position_value := (s : Rat) * price }

/-- Modelled from the spec: `Blotter.__getitem__` (pytech.trading.blotter
is not under src/) resolves an order by its synthetic id. -/
def findOrder (orders : List Order) (oid : Nat) : Option Order :=
  orders.find? (fun o => o.id = oid)

/-- Modelled from the spec: `Blotter.make_trade(order, price, dt, volume)`
increments the order's filled quantity and constructs the Trade record
(spec section 4.2); the commission comes from the order. -/
def blotterMakeTrade (ord : Order) (price : Rat) (dt : Nat) (volume : Int) :
    Trade :=
  { ticker := ord.ticker
    action := ord.action
    qty := volume
    avg_price_per_share := price
    commission := ord.commission
    dt := dt }

/-- Modelled from the spec: `Blotter.check_order_triggers` evaluates
`Order.check_order_triggers` on every live order against the price oracle
(spec section 4.2); an order whose evaluation raises is left unchanged. -/
def blotterEvalTriggers (orders : List Order) (quote : String → Rat)
    (now : Nat) : List Order :=
  orders.map (fun o => (o.check_order_triggers (quote o.ticker) now).getD o)

/-- Modelled from the spec: the list returned by
`Blotter.check_order_triggers` is the subset of orders whose `triggered`
became true during this evaluation (transition edge, spec section 4.2). -/
def blotterNewlyTriggered (orders : List Order) (quote : String → Rat)
    (now : Nat) : List Order :=
  (orders.filter (fun o =>
      !o.triggered &&
        ((o.check_order_triggers (quote o.ticker) now).getD o).triggered)).map
    (fun o => (o.check_order_triggers (quote o.ticker) now).getD o)

/-- The portfolio state (src/pytech/fin/portfolio/portfolio.py).  The data
handler, price oracle and persistence store are external collaborators and
appear as function parameters of the methods; holdings records are
string-keyed dicts (tickers plus "cash", "commission", "total"). -/
structure Portfolio where
  cash : Rat
  total_commission : Rat
  owned_assets : List (String × OwnedAsset)
  ticker_list : List String
  raise_on_warnings : Bool
  all_holdings_mv : List (List (String × Rat))
  blotter : List Order
  blotter_dt : Nat
deriving DecidableEq, Repr

/-- `Portfolio.total_asset_mv`: sum of `total_position_value` over the
owned assets. -/
def assetsMv : List (String × OwnedAsset) → Rat
  | [] => 0
  | kv :: rest => kv.2.total_position_value + assetsMv rest

/-- `Portfolio.total_asset_mv` property. -/
def Portfolio.total_asset_mv (p : Portfolio) : Rat :=
  assetsMv p.owned_assets

/-- `Portfolio.total_value` property: owned-asset market value plus cash. -/
def Portfolio.total_value (p : Portfolio) : Rat :=
  p.total_asset_mv + p.cash

/-- `Portfolio.check_liquidity(avg_price_per_share, qty)`: sells (negative
qty) always pass; buys require cash minus cost to stay strictly
positive. -/
def Portfolio.check_liquidity (p : Portfolio) (avg_price_per_share : Rat)
    (qty : Int) : Bool :=
  if qty < 0 then true
  else
    let cost := avg_price_per_share * (qty : Rat)
    let post_trade_cash := p.cash - cost
    decide (0 < post_trade_cash)

/-- `Portfolio.get_owned_asset_mv(ticker)`: the market value of an owned
asset; raises KeyError for a ticker that is not currently owned. -/
def Portfolio.get_owned_asset_mv (p : Portfolio) (ticker : String) :
    Except PError Rat :=
  match aget p.owned_assets ticker with
  | some a => Except.ok a.total_position_value
  | none => Except.error PError.KeyError

/-- The per-asset division loop of `Portfolio.current_weights`; dividing by
a zero total market value raises ZeroDivisionError exactly as Python float
division does. -/
def weightsLoop (total_mv : Rat) :
    List (String × OwnedAsset) → List (String × Rat) →
    Except PError (List (String × Rat))
  | [], ws => Except.ok ws
  | kv :: rest, ws =>
      if total_mv = 0 then Except.error PError.ZeroDivisionError
      else weightsLoop total_mv rest
        (aset ws kv.1 (kv.2.total_position_value / total_mv))

/-- `Portfolio.current_weights(include_cash)`: weights of each owned asset
(and optionally cash) relative to total (asset) market value. -/
def Portfolio.current_weights (p : Portfolio) (include_cash : Bool) :
    Except PError (List (String × Rat)) :=
  if include_cash then
    let total_mv := p.total_value
    if total_mv = 0 then Except.error PError.ZeroDivisionError
    else weightsLoop total_mv p.owned_assets (aset [] "cash" (p.cash / total_mv))
  else
    weightsLoop p.total_asset_mv p.owned_assets []

/-- `Portfolio.get_asset_weight(ticker, include_cash)`: the ticker's entry
in `current_weights`, with only the dict-lookup KeyError converted to 0.0
(any error raised inside `current_weights` itself propagates). -/
def Portfolio.get_asset_weight (p : Portfolio) (ticker : String)
    (include_cash : Bool) : Except PError Rat :=
  match p.current_weights include_cash with
  | Except.error e => Except.error e
  | Except.ok ws =>
      match aget ws ticker with
      | some w => Except.ok w
      | none => Except.ok 0

/-- The first loop of `update_timeindex`: record each ticker's shares owned
(0 when unowned) into the dict. -/
def sharesLoop (assets : List (String × OwnedAsset)) :
    List String → List (String × Rat) → List (String × Rat)
  | [], dh => dh
  | t :: rest, dh =>
      sharesLoop assets rest
        (aset dh t (match aget assets t with
                    | some a => (a.shares_owned : Rat)
                    | none => 0))

/-- The second loop of `update_timeindex`: for each ticker compute its mark
value (shares times latest adjusted close, 0 when unowned), store it in the
dict, add it to the running "total", and refresh the owned asset's recorded
position value.  ("total" is always present when this loop runs; the getD 0
can never apply.) -/
def holdingsLoop (bars : String → Rat) :
    List String → List (String × Rat) → List (String × OwnedAsset) →
    List (String × Rat) × List (String × OwnedAsset)
  | [], dh, assets => (dh, assets)
  | t :: rest, dh, assets =>
      match aget assets t with
      | none =>
          let dh1 := aset dh t 0
          let dh2 := aset dh1 "total" ((aget dh1 "total").getD 0 + 0)
          holdingsLoop bars rest dh2 assets
      | some a =>
          let adj_close := bars t
          let mv := (a.shares_owned : Rat) * adj_close
          let assets1 := aset assets t (a.update_total_position_value adj_close)
          let dh1 := aset dh t mv
          let dh2 := aset dh1 "total" ((aget dh1 "total").getD 0 + mv)
          holdingsLoop bars rest dh2 assets1

/-- The dict comprehension `_get_temp_dict`: every ticker mapped to 0. -/
def tempDict (ts : List String) : List (String × Rat) :=
  ts.foldl (fun d t => aset d t 0) []

/-- `Portfolio.update_timeindex(event)` (portfolio.py lines 254-324).
External collaborators appear as parameters: `latest_dt` is
`bars.get_latest_bar_dt(...)`, `bars` is `bars.latest_bar_value(.,
ADJ_CLOSE_COL)`, `quote` is the blotter's price oracle, `now` the clock.
The persistence-store writes go to an external collaborator and are not
part of the state; the assembled record is appended to
`all_holdings_mv`. -/
def Portfolio.update_timeindex (p : Portfolio) (e : Event) (latest_dt : Nat)
    (bars : String → Rat) (quote : String → Rat) (now : Nat) :
    Except PError Portfolio :=
  if e.event_type ≠ EventType.MARKET then
    Except.error PError.InvalidEventTypeError
  else
    let blotter1 := blotterEvalTriggers p.blotter quote now
    let dh0 := sharesLoop p.owned_assets p.ticker_list (tempDict p.ticker_list)
    let dh1 := aset (aset (aset dh0 "cash" p.cash)
                      "commission" p.total_commission) "total" p.cash
    let r := holdingsLoop bars p.ticker_list dh1 p.owned_assets
    Except.ok { p with blotter := blotter1
                       blotter_dt := latest_dt
                       owned_assets := r.2
                       all_holdings_mv := p.all_holdings_mv ++ [r.1] }

/-- `BasicPortfolio._update_from_trade(trade)`: apply the trade's cash
delta, accumulate commission, then create, update, or delete the owned
asset. -/
def Portfolio._update_from_trade (p : Portfolio) (tr : Trade) : Portfolio :=
  let p1 := { p with cash := p.cash + tr.trade_cost
                     total_commission := p.total_commission + tr.commission }
  match aget p1.owned_assets tr.ticker with
  | some oa =>
      match oa.make_trade tr.qty tr.avg_price_per_share with
      | none => { p1 with owned_assets := adel p1.owned_assets tr.ticker }
      | some ua => { p1 with owned_assets := aset p1.owned_assets tr.ticker ua }
  | none =>
      let pos := if tr.action = TradeAction.SELL then Position.SHORT
                 else Position.LONG
      { p1 with
        owned_assets :=
          aset p1.owned_assets tr.ticker (OwnedAsset.from_trade tr pos) }

/-- The observable outcome of one `update_fill` call: the new portfolio
state, the exception raised (if any), whether a warning was logged, and the
Trade made (if any). -/
structure UpdateFillResult where
  state : Portfolio
  err : Option PError
  warned : Bool
  tradeMade : Option Trade
deriving DecidableEq, Repr

/-- `BasicPortfolio.update_fill(event)` (portfolio.py lines 380-394): only
FILL events are acted on (any other event type falls through the single
`if` and the call returns with nothing done); the referenced order is
resolved from the blotter, the liquidity check gates the trade, and on
failure a warning is logged and InsufficientFundsError is raised only when
`raise_on_warnings` is set. -/
def Portfolio.update_fill (p : Portfolio) (e : Event) : UpdateFillResult :=
  if e.event_type = EventType.FILL then
    match findOrder p.blotter e.order_id with
    | none => { state := p, err := some PError.KeyError, warned := false,
                tradeMade := none }
    | some ord =>
        if p.check_liquidity e.price e.available_volume then
          let tr := blotterMakeTrade ord e.price e.dt e.available_volume
          let blotter1 := p.blotter.map (fun o =>
            if o.id = ord.id then { o with filled := o.filled + e.available_volume }
            else o)
          let p1 := Portfolio._update_from_trade { p with blotter := blotter1 } tr
          { state := p1, err := none, warned := false, tradeMade := some tr }
        else if p.raise_on_warnings then
          { state := p, err := some PError.InsufficientFundsError,
            warned := true, tradeMade := none }
        else
          { state := p, err := none, warned := true, tradeMade := none }
  else
    { state := p, err := none, warned := false, tradeMade := none }

/-- `BasicPortfolio.update_signal(event)` (portfolio.py lines 396-405):
SIGNAL events re-check order triggers and dispatch to the registered signal
handlers in order; any other event type raises InvalidEventTypeError.  The
handlers (external strategy plug-ins) are a parameter. -/
def Portfolio.update_signal (p : Portfolio) (e : Event)
    (quote : String → Rat) (now : Nat)
    (handlers : List (Portfolio → Event → List Order → Portfolio)) :
    Except PError Portfolio :=
  if e.event_type = EventType.SIGNAL then
    let triggered_orders := blotterNewlyTriggered p.blotter quote now
    let p1 := { p with blotter := blotterEvalTriggers p.blotter quote now }
    Except.ok (handlers.foldl (fun st h => h st e triggered_orders) p1)
  else
    Except.error PError.InvalidEventTypeError

/-- The mark value of a ticker used by `update_timeindex`: shares owned
times the latest adjusted close, and 0 for a ticker that is not owned. -/
def markValue (assets : List (String × OwnedAsset)) (bars : String → Rat)
    (t : String) : Rat :=
  match aget assets t with
  | some a => (a.shares_owned : Rat) * bars t
  | none => 0

/-- Sum of the mark values over a list of tickers. -/
def tickerSum (bars : String → Rat) (assets : List (String × OwnedAsset)) :
    List String → Rat
  | [] => 0
  | t :: rest => markValue assets bars t + tickerSum bars assets rest

/-- A sample open BUY market order resting in a blotter. -/
def ord0 : Order :=
  Order.init 1 "AAPL" TradeAction.BUY OrderType.MARKET none none 100 0 1 0
    OrderSubType.DAY none

/-- A sample order whose stored status was overwritten to FILLED through
the `status` setter while 5 shares remain unfilled. -/
def ordF : Order :=
  (Order.init 2 "AAPL" TradeAction.BUY OrderType.MARKET none none 5 0 0 0
    OrderSubType.DAY none).setStatus OrderStatus.FILLED

/-- A sample SELL order constructed with qty = filled = 5. -/
def ordS : Order :=
  Order.init 3 "AAPL" TradeAction.SELL OrderType.MARKET none none 5 5 0 0
    OrderSubType.DAY none

/-- The STOP_LIMIT BUY order of the spec's conversion scenario:
stop = 50, limit = 55. -/
def slOrder : Order :=
  Order.init 4 "AAPL" TradeAction.BUY OrderType.STOP_LIMIT (some 50)
    (some 55) 100 0 0 0 OrderSubType.DAY none

/-- The state of `slOrder` after the tick at price 51. -/
def slOrder2 : Order :=
  (slOrder.check_order_triggers 51 2).getD slOrder

/-- The state of `slOrder2` after the tick at price 56. -/
def slOrder3 : Order :=
  (slOrder2.check_order_triggers 56 3).getD slOrder2

/-- A sample empty portfolio with 100000 cash. -/
def pf0 : Portfolio :=
  { cash := 100000
    total_commission := 0
    owned_assets := []
    ticker_list := ["AAPL"]
    raise_on_warnings := false
    all_holdings_mv := []
    blotter := []
    blotter_dt := 0 }

/-- A sample portfolio with 100 cash holding `ord0` in its blotter; a fill
of 1 share at 1000 fails its liquidity check. -/
def pf1 : Portfolio :=
  { cash := 100
    total_commission := 0
    owned_assets := []
    ticker_list := ["AAPL"]
    raise_on_warnings := false
    all_holdings_mv := []
    blotter := [ord0]
    blotter_dt := 0 }

/-- A sample portfolio owning one asset whose recorded position value is 0,
so the total asset market value is 0. -/
def pfZ : Portfolio :=
  { cash := 50
    total_commission := 0
    owned_assets := [("AAPL", { shares_owned := 1, position := Position.LONG,
                                total_position_value := 0 })]
    ticker_list := ["AAPL"]
    raise_on_warnings := false
    all_holdings_mv := []
    blotter := []
    blotter_dt := 0 }

/-- A sample portfolio with two tracked tickers, owning 10 shares of the
first. -/
def pfT : Portfolio :=
  { cash := 1000
    total_commission := 2
    owned_assets := [("AAPL", { shares_owned := 10, position := Position.LONG,
                                total_position_value := 0 })]
    ticker_list := ["AAPL", "GOOG"]
    raise_on_warnings := false
    all_holdings_mv := []
    blotter := []
    blotter_dt := 0 }

/-- A sample MARKET event. -/
def eMkt : Event :=
  { event_type := EventType.MARKET, order_id := 0, price := 0, dt := 0,
    available_volume := 0 }

/-- A sample FILL event for order id 1: 1 share at price 1000. -/
def eFillBad : Event :=
  { event_type := EventType.FILL, order_id := 1, price := 1000, dt := 5,
    available_volume := 1 }

/-- A sample order held with 2 of 5 shares filled. -/
def ordH : Order :=
  (Order.init 5 "AAPL" TradeAction.BUY OrderType.MARKET none none 5 2 0 0
    OrderSubType.DAY none).hold "capital check"

/-- A sample not-yet-triggered STOP_LIMIT SELL order with stop = 50 and
limit = 55. -/
def ordSL : Order :=
  Order.init 6 "AAPL" TradeAction.SELL OrderType.STOP_LIMIT (some 50)
    (some 55) (-100) 0 0 0 OrderSubType.DAY none

/-- A sample portfolio owning one asset marked at 50. -/
def pfW : Portfolio :=
  { cash := 50
    total_commission := 0
    owned_assets := [("AAPL", { shares_owned := 5, position := Position.LONG,
                                total_position_value := 50 })]
    ticker_list := ["AAPL"]
    raise_on_warnings := false
    all_holdings_mv := []
    blotter := []
    blotter_dt := 0 }

theorem aget_aset_self {α : Type} (d : List (String × α)) (k : String) (v : α) :
    aget (aset d k v) k = some v := by
  induction d with
  | nil => simp [aset, aget]
  | cons kv rest ih =>
      by_cases h : kv.1 = k
      · simp [aset, h, aget]
      · simp [aset, h, aget, ih]

theorem aget_aset_ne {α : Type} (d : List (String × α)) (k k' : String)
    (v : α) (h : k' ≠ k) : aget (aset d k' v) k = aget d k := by
  induction d with
  | nil => simp [aset, aget, h]
  | cons kv rest ih =>
      by_cases hk : kv.1 = k'
      · simp [aset, hk, aget, h]
      · by_cases hk2 : kv.1 = k
        · simp [aset, hk, aget, hk2, Ne.symm h]
        · simp [aset, hk, aget, hk2, ih]

/-- C6: `check_liquidity` returns true for every negative quantity, and for
a nonnegative quantity it returns true exactly when cash minus price times
quantity is strictly positive. -/
theorem check_liquidity_spec (p : Portfolio) (price : Rat) (qty : Int) :
    (qty < 0 → p.check_liquidity price qty = true) ∧
    (0 ≤ qty → (p.check_liquidity price qty = true ↔
      0 < p.cash - price * (qty : Rat))) := by
  constructor
  · intro h
    simp [Portfolio.check_liquidity, h]
  · intro h
    simp [Portfolio.check_liquidity, not_lt.mpr h]

/-- C6 witness: a sell of 3 shares passes regardless of cash, and a buy of
5 shares at 10 passes exactly when cash minus 50 is positive. -/
theorem check_liquidity_spec_witness :
    pf0.check_liquidity 10 (-3) = true ∧
    (pf0.check_liquidity 10 5 = true ↔ 0 < pf0.cash - 10 * ((5 : Int) : Rat)) :=
  ⟨(check_liquidity_spec pf0 10 (-3)).1 (by decide),
   (check_liquidity_spec pf0 10 5).2 (by decide)⟩

/-- C5: a FILL event that fails the liquidity check mutates no portfolio
state and makes no Trade; a warning is logged, and InsufficientFundsError
is raised exactly when the portfolio was built with raise_on_warnings. -/
theorem update_fill_liquidity_failure (p : Portfolio) (e : Event)
    (ord : Order) (he : e.event_type = EventType.FILL)
    (hord : findOrder p.blotter e.order_id = some ord)
    (hliq : p.check_liquidity e.price e.available_volume = false) :
    p.update_fill e =
      { state := p
        err := if p.raise_on_warnings then some PError.InsufficientFundsError
               else none
        warned := true
        tradeMade := none } := by
  simp only [Portfolio.update_fill, he, if_true, hord, hliq, Bool.false_eq_true,
    if_false]
  split <;> simp

/-- C5 witness: on pf1 (cash 100) a fill of 1 share at 1000 fails the
liquidity check, changes nothing, warns and raises nothing. -/
theorem update_fill_liquidity_failure_witness :
    pf1.update_fill eFillBad =
      { state := pf1
        err := if pf1.raise_on_warnings then some PError.InsufficientFundsError
               else none
        warned := true
        tradeMade := none } :=
  update_fill_liquidity_failure pf1 eFillBad ord0 (by decide) (by decide)
    (by norm_num [pf1, eFillBad, Portfolio.check_liquidity])

/-- C4 counterexample: update_fill invoked with a MARKET event does not
fail fast; it raises nothing and silently leaves the portfolio unchanged. -/
theorem update_fill_wrong_event_counterexample :
    pf0.update_fill eMkt =
      { state := pf0, err := none, warned := false, tradeMade := none } := by
  decide

/-- C4 (amended): update_timeindex and update_signal fail fast with
InvalidEventTypeError on a wrong event kind, but update_fill silently
ignores any event whose type is not FILL, leaving all state unchanged and
raising nothing. -/
theorem wrong_event_type_handling :
    (∀ (p : Portfolio) (e : Event) (latest_dt : Nat) (bars quote : String → Rat)
       (now : Nat), e.event_type ≠ EventType.MARKET →
        p.update_timeindex e latest_dt bars quote now =
          Except.error PError.InvalidEventTypeError) ∧
    (∀ (p : Portfolio) (e : Event) (quote : String → Rat) (now : Nat)
       (handlers : List (Portfolio → Event → List Order → Portfolio)),
        e.event_type ≠ EventType.SIGNAL →
        p.update_signal e quote now handlers =
          Except.error PError.InvalidEventTypeError) ∧
    (∀ (p : Portfolio) (e : Event), e.event_type ≠ EventType.FILL →
        p.update_fill e =
          { state := p, err := none, warned := false, tradeMade := none }) := by
  refine ⟨?_, ?_, ?_⟩
  · intro p e latest_dt bars quote now h
    simp [Portfolio.update_timeindex, h]
  · intro p e quote now handlers h
    simp [Portfolio.update_signal, h]
  · intro p e h
    simp [Portfolio.update_fill, h]

/-- C4 (amended) witness: a FILL event is rejected by update_timeindex and
update_signal, and a MARKET event is silently ignored by update_fill. -/
theorem wrong_event_type_handling_witness :
    pf0.update_timeindex eFillBad 0 (fun _ => 0) (fun _ => 0) 0 =
      Except.error PError.InvalidEventTypeError ∧
    pf0.update_signal eFillBad (fun _ => 0) 0 [] =
      Except.error PError.InvalidEventTypeError ∧
    pf0.update_fill eMkt =
      { state := pf0, err := none, warned := false, tradeMade := none } :=
  ⟨wrong_event_type_handling.1 pf0 eFillBad 0 (fun _ => 0) (fun _ => 0) 0
     (by decide),
   wrong_event_type_handling.2.1 pf0 eFillBad (fun _ => 0) 0 [] (by decide),
   wrong_event_type_handling.2.2 pf0 eMkt (by decide)⟩

/-- C1 counterexample: an order whose stored status was set to FILLED
through the status setter reports FILLED although 5 shares are open, so
status = FILLED does not imply open_amount = 0. -/
theorem status_getter_filled_counterexample :
    ordF.status = OrderStatus.FILLED ∧ ordF.open_amount ≠ 0 := by
  decide

/-- C1 (amended): the status getter reports FILLED iff open_amount is zero
or the stored status is itself FILLED; otherwise a stored HELD with a
nonzero fill reports OPEN, and in every other case the stored status is
reported verbatim. -/
theorem status_getter_amended (o : Order) :
    (o.status = OrderStatus.FILLED ↔
      (o.open_amount = 0 ∨ o._status = OrderStatus.FILLED)) ∧
    (o.open_amount ≠ 0 → o._status = OrderStatus.HELD → o.filled ≠ 0 →
      o.status = OrderStatus.OPEN) ∧
    (o.open_amount ≠ 0 → ¬(o._status = OrderStatus.HELD ∧ o.filled ≠ 0) →
      o.status = o._status) := by
  unfold Order.status
  by_cases h0 : o.open_amount = 0
  · simp [h0]
  · by_cases h1 : o._status = OrderStatus.HELD ∧ o.filled ≠ 0
    · simp [h0, h1, h1.1]
    · simp [h0, h1]
      intro ha hb
      exact absurd ⟨ha, hb⟩ h1

/-- C1 (amended) witness: a held order with a partial fill reports OPEN,
and an order with stored status FILLED and open shares reports the stored
status verbatim. -/
theorem status_getter_amended_witness :
    ordH.status = OrderStatus.OPEN ∧ ordF.status = ordF._status :=
  ⟨(status_getter_amended ordH).2.1 (by decide) (by decide) (by decide),
   (status_getter_amended ordF).2.2 (by decide) (by decide)⟩

/-- C10 counterexample: a SELL order constructed with qty = filled = 5 has
its quantity negated to -5, so open_amount is -10, the status getter
reports OPEN (not FILLED) and the order counts as open. -/
theorem order_init_sell_qty_filled_counterexample :
    ordS.open_amount = -10 ∧ ordS.status = OrderStatus.OPEN ∧
    ordS.is_open = true ∧ ordS.qty = -5 ∧ ordS.filled = 5 := by
  decide

/-- C10 (amended): an Order constructed with qty equal to filled reports
FILLED immediately with open false and stored status OPEN, provided the
constructor's sign flip does not apply (the action is BUY or the quantity
is nonpositive; in particular the defaults qty = 0, filled = 0). -/
theorem order_init_qty_eq_filled_amended (id : Nat) (ticker : String)
    (action : TradeAction) (order_type : OrderType) (stop limit : Option Rat)
    (qty filled : Int) (commission : Rat) (created : Nat)
    (order_subtype : OrderSubType) (mdo : Option Nat)
    (hsign : action = TradeAction.BUY ∨ qty ≤ 0) (heq : qty = filled) :
    (Order.init id ticker action order_type stop limit qty filled commission
      created order_subtype mdo).open_amount = 0 ∧
    (Order.init id ticker action order_type stop limit qty filled commission
      created order_subtype mdo).status = OrderStatus.FILLED ∧
    (Order.init id ticker action order_type stop limit qty filled commission
      created order_subtype mdo).is_open = false ∧
    (Order.init id ticker action order_type stop limit qty filled commission
      created order_subtype mdo)._status = OrderStatus.OPEN := by
  have hq : (Order.init id ticker action order_type stop limit qty filled
      commission created order_subtype mdo).qty = qty := by
    rcases hsign with h | h
    · simp [Order.init, h]
    · have hns : ¬(action = TradeAction.SELL ∧ 0 < qty) := by
        rintro ⟨-, hlt⟩
        omega
      simp [Order.init, hns]
  have hf : (Order.init id ticker action order_type stop limit qty filled
      commission created order_subtype mdo).filled = filled := rfl
  have hoa : (Order.init id ticker action order_type stop limit qty filled
      commission created order_subtype mdo).open_amount = 0 := by
    simp only [Order.open_amount]
    rw [hq, hf]
    omega
  refine ⟨hoa, ?_, ?_, rfl⟩
  · simp [Order.status, hoa]
  · simp [Order.is_open, Order.status, hoa]

/-- C10 (amended) witness: the default construction qty = 0, filled = 0 on
a BUY order is immediately FILLED, not open, with stored status OPEN. -/
theorem order_init_qty_eq_filled_amended_witness :
    (Order.init 7 "AAPL" TradeAction.BUY OrderType.MARKET none none 0 0 0 0
      OrderSubType.DAY none).open_amount = 0 ∧
    (Order.init 7 "AAPL" TradeAction.BUY OrderType.MARKET none none 0 0 0 0
      OrderSubType.DAY none).status = OrderStatus.FILLED ∧
    (Order.init 7 "AAPL" TradeAction.BUY OrderType.MARKET none none 0 0 0 0
      OrderSubType.DAY none).is_open = false ∧
    (Order.init 7 "AAPL" TradeAction.BUY OrderType.MARKET none none 0 0 0 0
      OrderSubType.DAY none)._status = OrderStatus.OPEN :=
  order_init_qty_eq_filled_amended 7 "AAPL" TradeAction.BUY OrderType.MARKET
    none none 0 0 0 0 OrderSubType.DAY none (Or.inl rfl) rfl

/-- C9 counterexample: pfZ owns one asset whose recorded value is 0, so the
total asset market value is 0; a weight query for the unowned ticker MSFT
then fails with ZeroDivisionError instead of returning 0.0. -/
theorem get_asset_weight_zerodiv_counterexample :
    aget pfZ.owned_assets "MSFT" = none ∧
    pfZ.get_asset_weight "MSFT" false =
      Except.error PError.ZeroDivisionError := by
  constructor
  · decide
  · norm_num [pfZ, Portfolio.get_asset_weight, Portfolio.current_weights,
      Portfolio.total_asset_mv, assetsMv, weightsLoop]

theorem weightsLoop_ok (total : Rat) (h : total ≠ 0)
    (assets : List (String × OwnedAsset)) :
    ∀ ws, weightsLoop total assets ws =
      Except.ok (assets.foldl
        (fun w kv => aset w kv.1 (kv.2.total_position_value / total)) ws) := by
  induction assets with
  | nil =>
      intro ws
      simp [weightsLoop]
  | cons kv rest ih =>
      intro ws
      simp [weightsLoop, h, List.foldl, ih]

theorem aget_keys_ne {α : Type} (d : List (String × α)) (t : String)
    (h : aget d t = none) : ∀ kv ∈ d, kv.1 ≠ t := by
  induction d with
  | nil => simp
  | cons kv rest ih =>
      by_cases hk : kv.1 = t
      · simp [aget, hk] at h
      · intro kv2 hmem
        rcases List.mem_cons.mp hmem with rfl | hmem2
        · exact hk
        · exact ih (by simpa [aget, hk] using h) kv2 hmem2

theorem aget_foldl_weights (total : Rat) (assets : List (String × OwnedAsset))
    (t : String) :
    ∀ ws, (∀ kv ∈ assets, kv.1 ≠ t) → aget ws t = none →
      aget (assets.foldl
        (fun w kv => aset w kv.1 (kv.2.total_position_value / total)) ws) t =
        none := by
  induction assets with
  | nil =>
      intro ws _ hw
      simpa using hw
  | cons kv rest ih =>
      intro ws hk hw
      simp only [List.foldl]
      apply ih
      · intro kv2 h2
        exact hk kv2 (List.mem_cons_of_mem _ h2)
      · rw [aget_aset_ne _ t kv.1 _ (hk kv (List.mem_cons_self _ _))]
        exact hw

/-- C9 (amended): a weight query for an unowned ticker returns 0.0 provided
no division by zero occurs on the way (the total asset market value is
nonzero, or nothing is owned at all); a direct market-value lookup for an
unowned ticker always raises KeyError; for an owned ticker the
market-value lookup succeeds, and the weight query succeeds whenever the
total asset market value is nonzero. -/
theorem unknown_ticker_lookups_amended :
    (∀ (p : Portfolio) (t : String), aget p.owned_assets t = none →
        p.total_asset_mv ≠ 0 ∨ p.owned_assets = [] →
        p.get_asset_weight t false = Except.ok 0) ∧
    (∀ (p : Portfolio) (t : String), aget p.owned_assets t = none →
        p.get_owned_asset_mv t = Except.error PError.KeyError) ∧
    (∀ (p : Portfolio) (t : String) (a : OwnedAsset),
        aget p.owned_assets t = some a →
        p.get_owned_asset_mv t = Except.ok a.total_position_value ∧
        (p.total_asset_mv ≠ 0 →
          ∃ w, p.get_asset_weight t false = Except.ok w)) := by
  refine ⟨?_, ?_, ?_⟩
  · intro p t hnone hcase
    rcases hcase with hmv | hemp
    · have hok := weightsLoop_ok p.total_asset_mv hmv p.owned_assets []
      have hfold : aget (p.owned_assets.foldl
          (fun w kv => aset w kv.1 (kv.2.total_position_value /
            p.total_asset_mv)) []) t = none :=
        aget_foldl_weights p.total_asset_mv p.owned_assets t []
          (aget_keys_ne _ _ hnone) rfl
      unfold Portfolio.get_asset_weight Portfolio.current_weights
      simp only [Bool.false_eq_true, if_false, hok, hfold]
    · simp [Portfolio.get_asset_weight, Portfolio.current_weights, hemp,
        weightsLoop, aget]
  · intro p t hnone
    simp [Portfolio.get_owned_asset_mv, hnone]
  · intro p t a hsome
    refine ⟨by simp [Portfolio.get_owned_asset_mv, hsome], ?_⟩
    intro hmv
    have hok := weightsLoop_ok p.total_asset_mv hmv p.owned_assets []
    unfold Portfolio.get_asset_weight Portfolio.current_weights
    simp only [Bool.false_eq_true, if_false, hok]
    rcases haw : aget (p.owned_assets.foldl
        (fun w kv => aset w kv.1 (kv.2.total_position_value /
          p.total_asset_mv)) []) t with _ | w
    · exact ⟨0, by simp [haw]⟩
    · exact ⟨w, by simp [haw]⟩

/-- C9 (amended) witness: on pfW (one owned asset marked at 50) the weight
query for unowned MSFT returns 0, its market-value lookup raises KeyError,
and both lookups succeed for the owned ticker AAPL. -/
theorem unknown_ticker_lookups_amended_witness :
    pfW.get_asset_weight "MSFT" false = Except.ok 0 ∧
    pfW.get_owned_asset_mv "MSFT" = Except.error PError.KeyError ∧
    pfW.get_owned_asset_mv "AAPL" = Except.ok (50 : Rat) ∧
    ∃ w, pfW.get_asset_weight "AAPL" false = Except.ok w :=
  ⟨unknown_ticker_lookups_amended.1 pfW "MSFT" (by decide)
     (Or.inl (by norm_num [pfW, Portfolio.total_asset_mv, assetsMv])),
   unknown_ticker_lookups_amended.2.1 pfW "MSFT" (by decide),
   (unknown_ticker_lookups_amended.2.2 pfW "AAPL"
      (OwnedAsset.mk 5 Position.LONG 50) (by decide)).1,
   (unknown_ticker_lookups_amended.2.2 pfW "AAPL"
      (OwnedAsset.mk 5 Position.LONG 50) (by decide)).2
     (by norm_num [pfW, Portfolio.total_asset_mv, assetsMv])⟩

theorem trigger_branch_some (o : Order) (price : Rat) (now : Nat)
    (o1 : Order) (h : o.trigger_branch price now = some o1) :
    o1.order_type = o.order_type ∧ o1.stop = o.stop ∧ o1.limit = o.limit ∧
    o1.qty = o.qty ∧ o1.filled = o.filled ∧ o1._status = o._status := by
  rcases hty : o.order_type <;> rcases hact : o.action <;>
    rcases hs : o.stop with _ | s <;> rcases hl : o.limit with _ | l <;>
      simp only [Order.trigger_branch, hty, hact, hs, hl] at h <;>
        (repeat' split at h) <;>
          first
          | exact Option.noConfusion h
          | (obtain rfl := Option.some.inj h
             simp [hty, hs, hl])

theorem check_order_triggers_type_stable (o : Order) (price : Rat)
    (now : Nat) (o1 : Order) (hne : o.order_type ≠ OrderType.STOP_LIMIT)
    (h : o.check_order_triggers price now = some o1) :
    o1.order_type = o.order_type := by
  unfold Order.check_order_triggers at h
  split at h
  · obtain rfl := Option.some.inj h
    rfl
  · split at h
    · obtain rfl := Option.some.inj h
      rfl
    · rcases hbr : o.trigger_branch price now with _ | o2
      · rw [hbr] at h
        exact Option.noConfusion h
      · rw [hbr] at h
        have ht2 := (trigger_branch_some o price now o2 hbr).1
        simp only [Option.some.injEq] at h
        rw [if_neg (fun hc => hne (ht2 ▸ hc.2))] at h
        obtain rfl := Option.some.inj h
        exact ht2

/-- C2: the STOP_LIMIT BUY order with stop 50 and limit 55 over the price
path 48, 51, 56: untriggered after 48; after 51 the stop is reached, the
order becomes a LIMIT order with stop cleared and is still untriggered;
after 56 the limit is reached and the order is triggered; and an order
whose type is not STOP_LIMIT keeps its type, so the in-place conversion can
fire at most once per order. -/
theorem stop_limit_conversion_scenario :
    slOrder.triggered = false ∧
    slOrder.check_order_triggers 48 1 = some slOrder ∧
    slOrder.check_order_triggers 51 2 = some slOrder2 ∧
    slOrder2.stop_reached = true ∧
    slOrder2.stop = none ∧
    slOrder2.order_type = OrderType.LIMIT ∧
    slOrder2.limit_reached = false ∧
    slOrder2.triggered = false ∧
    slOrder2.check_order_triggers 56 3 = some slOrder3 ∧
    slOrder3.limit_reached = true ∧
    slOrder3.triggered = true ∧
    (∀ (o : Order) (price : Rat) (now : Nat) (o1 : Order),
        o.order_type ≠ OrderType.STOP_LIMIT →
        o.check_order_triggers price now = some o1 →
        o1.order_type = o.order_type) := by
  refine ⟨by decide, by decide, by decide, by decide, by decide, by decide,
    by decide, by decide, by decide, by decide, by decide, ?_⟩
  intro o price now o1 hne h
  exact check_order_triggers_type_stable o price now o1 hne h

/-- C2 witness: the converted order (now a LIMIT order) keeps its type
through the third tick. -/
theorem stop_limit_conversion_scenario_witness :
    slOrder3.order_type = slOrder2.order_type :=
  stop_limit_conversion_scenario.2.2.2.2.2.2.2.2.2.2.2 slOrder2 56 3 slOrder3
    (by decide) (by decide)

/-- C3: on a not-yet-triggered STOP_LIMIT SELL order, one evaluation sets
stop_reached exactly when price ≤ stop, and sets limit_reached only
together with stop_reached, exactly when additionally price ≥ limit (the
asymmetric comparison, not price ≤ limit as for a plain LIMIT SELL). -/
theorem stop_limit_sell_asymmetric (o : Order) (p : Rat) (t : Nat)
    (s l : Rat) (hty : o.order_type = OrderType.STOP_LIMIT)
    (hact : o.action = TradeAction.SELL)
    (hs : o.stop = some s) (hl : o.limit = some l)
    (hsr : o.stop_reached = false) (hlr : o.limit_reached = false) :
    o.triggered = false ∧
    ∃ o1, o.check_order_triggers p t = some o1 ∧
      (o1.stop_reached = true ↔ p ≤ s) ∧
      (o1.limit_reached = true ↔ (o1.stop_reached = true ∧ l ≤ p)) := by
  have htrig : o.triggered = false := by
    simp [Order.triggered, hs, hsr]
  refine ⟨htrig, ?_⟩
  by_cases hps : p ≤ s
  · by_cases hlp : l ≤ p
    · refine ⟨{ o with
          stop_reached := true, last_updated := t, limit_reached := true,
          stop := none, order_type := OrderType.LIMIT },
          ?_, by simp [hps], by simp [hlp]⟩
      simp [Order.check_order_triggers, Order.trigger_branch, hty, hact, hs,
        hl, htrig, hps, hlp]
    · refine ⟨{ o with
          stop_reached := true, last_updated := t,
          stop := none, order_type := OrderType.LIMIT },
          ?_, by simp [hps], by simp [hlr, hlp]⟩
      simp [Order.check_order_triggers, Order.trigger_branch, hty, hact, hs,
        hl, htrig, hps, hlp]
  · refine ⟨o, ?_, by simp [hsr, hps], by simp [hlr, hsr]⟩
    simp [Order.check_order_triggers, Order.trigger_branch, hty, hact, hs,
      hl, htrig, hps, hsr]

/-- C3 witness: the STOP_LIMIT SELL order with stop 50, limit 55 evaluated
at price 49 reaches its stop (49 ≤ 50) but not its limit (55 > 49). -/
theorem stop_limit_sell_asymmetric_witness :
    ordSL.triggered = false ∧
    ∃ o1, ordSL.check_order_triggers 49 7 = some o1 ∧
      (o1.stop_reached = true ↔ (49 : Rat) ≤ 50) ∧
      (o1.limit_reached = true ↔ (o1.stop_reached = true ∧ (55 : Rat) ≤ 49)) :=
  stop_limit_sell_asymmetric ordSL 49 7 50 55 (by decide) (by decide)
    (by decide) (by decide) (by decide) (by decide)

theorem trigger_branch_no_guard (o : Order) (p : Rat) (now : Nat)
    (h : o.trigger_guard p = false) :
    o.trigger_branch p now = some o ∨ o.trigger_branch p now = none := by
  rcases hty : o.order_type <;> rcases hact : o.action <;>
    rcases hs : o.stop with _ | s <;> rcases hl : o.limit with _ | l <;>
      simp_all [Order.trigger_guard, Order.trigger_branch, hty, hact, hs, hl]

theorem check_order_triggers_no_cond (o : Order) (p : Rat) (t : Nat)
    (h : o.trigger_condition_met p = false) :
    o.check_order_triggers p t = some o ∨
      o.check_order_triggers p t = none := by
  by_cases hm : o.order_type = OrderType.MARKET
  · left
    simp [Order.check_order_triggers, hm]
  · by_cases htr : o.triggered = true
    · left
      simp [Order.check_order_triggers, hm, htr]
    · unfold Order.trigger_condition_met at h
      rw [if_neg hm, if_neg htr] at h
      obtain ⟨hg, hc⟩ := Bool.or_eq_false_iff.mp h
      have hnconv : ¬(o.stop_reached = true ∧
          o.order_type = OrderType.STOP_LIMIT) := by
        rintro ⟨h1, h2⟩
        simp [h1, h2] at hc
      rcases trigger_branch_no_guard o p t hg with hbr | hbr
      · left
        unfold Order.check_order_triggers
        rw [if_neg hm, if_neg htr, hbr]
        simp only [Option.some.injEq]
        rw [if_neg hnconv]
      · right
        unfold Order.check_order_triggers
        rw [if_neg hm, if_neg htr, hbr]

/-- C8: an already-triggered order is left unchanged by
check_order_triggers, and when no mutation guard of the function holds at a
price, a call leaves the order unchanged, so a second call at the same
price changes nothing either. -/
theorem check_order_triggers_idempotence :
    (∀ (o : Order) (p : Rat) (t : Nat), o.triggered = true →
        o.check_order_triggers p t = some o) ∧
    (∀ (o : Order) (p : Rat) (t : Nat) (o1 : Order),
        o.trigger_condition_met p = false →
        o.check_order_triggers p t = some o1 →
        o1.check_order_triggers p t = some o1) := by
  constructor
  · intro o p t h
    unfold Order.check_order_triggers
    simp [h]
  · intro o p t o1 hcond hck
    rcases check_order_triggers_no_cond o p t hcond with h1 | h1
    · rw [hck] at h1
      obtain rfl := Option.some.inj h1
      exact hck
    · rw [hck] at h1
      exact absurd h1 (by simp)

/-- C8 witness: a triggered MARKET order is unchanged, and the untriggered
STOP_LIMIT order at price 48 (no condition met) is unchanged by a second
evaluation. -/
theorem check_order_triggers_idempotence_witness :
    ord0.check_order_triggers 10 1 = some ord0 ∧
    slOrder.check_order_triggers 48 1 = some slOrder :=
  ⟨check_order_triggers_idempotence.1 ord0 10 1 (by decide),
   check_order_triggers_idempotence.2 slOrder 48 1 slOrder (by decide)
     (by decide)⟩

theorem markValue_update (assets : List (String × OwnedAsset)) (t : String)
    (a : OwnedAsset) (price : Rat) (bars : String → Rat)
    (ha : aget assets t = some a) (u : String) :
    markValue (aset assets t (a.update_total_position_value price)) bars u =
      markValue assets bars u := by
  by_cases hu : u = t
  · subst hu
    unfold markValue
    rw [aget_aset_self, ha]
    simp [OwnedAsset.update_total_position_value]
  · unfold markValue
    rw [aget_aset_ne assets u t _ (Ne.symm hu)]

theorem tickerSum_congr (bars : String → Rat)
    (a1 a2 : List (String × OwnedAsset))
    (h : ∀ u, markValue a1 bars u = markValue a2 bars u) :
    ∀ ts, tickerSum bars a1 ts = tickerSum bars a2 ts := by
  intro ts
  induction ts with
  | nil => rfl
  | cons t rest ih => simp [tickerSum, h t, ih]

theorem holdingsLoop_total (bars : String → Rat) (ts : List String) :
    ∀ (dh : List (String × Rat)) (assets : List (String × OwnedAsset))
      (x : Rat), "total" ∉ ts → aget dh "total" = some x →
      aget (holdingsLoop bars ts dh assets).1 "total" =
        some (x + tickerSum bars assets ts) := by
  induction ts with
  | nil =>
      intro dh assets x _ hx
      simp [holdingsLoop, tickerSum, hx]
  | cons t rest ih =>
      intro dh assets x hnm hx
      simp only [List.mem_cons, not_or] at hnm
      obtain ⟨h1, h2⟩ := hnm
      rcases ha : aget assets t with _ | a
      · simp only [holdingsLoop, ha]
        have e1 : aget (aset dh t 0) "total" = some x := by
          rw [aget_aset_ne dh "total" t _ (Ne.symm h1)]
          exact hx
        have e2 : aget (aset (aset dh t 0) "total"
            ((aget (aset dh t 0) "total").getD 0 + 0)) "total" =
            some (x + 0) := by
          rw [aget_aset_self, e1]
          rfl
        rw [ih _ _ _ h2 e2]
        simp only [tickerSum, markValue, ha, Option.some.injEq]
        ring
      · simp only [holdingsLoop, ha]
        have e1 : aget (aset dh t ((a.shares_owned : Rat) * bars t))
            "total" = some x := by
          rw [aget_aset_ne dh "total" t _ (Ne.symm h1)]
          exact hx
        have e2 : aget (aset (aset dh t ((a.shares_owned : Rat) * bars t))
            "total" ((aget (aset dh t ((a.shares_owned : Rat) * bars t))
              "total").getD 0 + (a.shares_owned : Rat) * bars t)) "total" =
            some (x + (a.shares_owned : Rat) * bars t) := by
          rw [aget_aset_self, e1]
          rfl
        rw [ih _ _ _ h2 e2]
        rw [tickerSum_congr bars
          (aset assets t (a.update_total_position_value (bars t))) assets
          (markValue_update assets t a (bars t) bars ha) rest]
        simp only [tickerSum, markValue, ha, Option.some.injEq]
        ring
  
theorem holdingsLoop_preserve (bars : String → Rat) (ts : List String) :
    ∀ (dh : List (String × Rat)) (assets : List (String × OwnedAsset))
      (k : String), k ∉ ts → k ≠ "total" →
      aget (holdingsLoop bars ts dh assets).1 k = aget dh k := by
  induction ts with
  | nil =>
      intro dh assets k _ _
      simp [holdingsLoop]
  | cons t rest ih =>
      intro dh assets k hk hkt
      simp only [List.mem_cons, not_or] at hk
      obtain ⟨h1, h2⟩ := hk
      rcases ha : aget assets t with _ | a <;>
        simp only [holdingsLoop, ha] <;>
        rw [ih _ _ _ h2 hkt] <;>
        rw [aget_aset_ne _ k "total" _ (Ne.symm hkt),
          aget_aset_ne _ k t _ (Ne.symm h1)]

/-- C7: on a MARKET event, the holdings record appended by update_timeindex
has total equal to cash plus the sum over all tracked tickers of that
ticker's mark value (shares owned times latest adjusted close, 0 for an
unowned ticker), provided no tracked ticker is literally named "total" or
"cash" (which would collide with the dict's reserved keys). -/
theorem update_timeindex_total_invariant (p : Portfolio) (e : Event)
    (latest_dt : Nat) (bars quote : String → Rat) (now : Nat)
    (he : e.event_type = EventType.MARKET)
    (ht : "total" ∉ p.ticker_list) (hc : "cash" ∉ p.ticker_list) :
    ∃ (p' : Portfolio) (dh : List (String × Rat)),
      p.update_timeindex e latest_dt bars quote now = Except.ok p' ∧
      p'.all_holdings_mv = p.all_holdings_mv ++ [dh] ∧
      aget dh "total" =
        some (p.cash + tickerSum bars p.owned_assets p.ticker_list) ∧
      aget dh "cash" = some p.cash := by
  unfold Portfolio.update_timeindex
  rw [if_neg (by simp [he])]
  refine ⟨_, _, rfl, rfl, ?_, ?_⟩
  · apply holdingsLoop_total bars p.ticker_list _ _ p.cash ht
    exact aget_aset_self _ _ _
  · rw [holdingsLoop_preserve bars p.ticker_list _ _ "cash" hc (by decide)]
    rw [aget_aset_ne _ "cash" "total" _ (by decide)]
    rw [aget_aset_ne _ "cash" "commission" _ (by decide)]
    exact aget_aset_self _ _ _

/-- C7 witness: pfT (10 AAPL shares, 1000 cash) marked at AAPL = 5 appends
a record whose total is cash plus the mark values. -/
theorem update_timeindex_total_invariant_witness :
    ∃ (p' : Portfolio) (dh : List (String × Rat)),
      pfT.update_timeindex eMkt 7 (fun t => if t = "AAPL" then (5 : Rat) else 9)
        (fun _ => 0) 7 = Except.ok p' ∧
      p'.all_holdings_mv = pfT.all_holdings_mv ++ [dh] ∧
      aget dh "total" = some (pfT.cash + tickerSum
        (fun t => if t = "AAPL" then (5 : Rat) else 9) pfT.owned_assets
        pfT.ticker_list) ∧
      aget dh "cash" = some pfT.cash :=
  update_timeindex_total_invariant pfT eMkt 7
    (fun t => if t = "AAPL" then (5 : Rat) else 9) (fun _ => 0) 7
    (by decide) (by decide) (by decide)
